import Mathlib

/-!
# A shallow embedding of `gather.go` from `prometheus-rancher-exporter`

This file models the gather-and-translate pipeline of the exporter:
the endpoint URL construction (`setEndpoint`), the stack/cluster
reference caches (`storeStackRef` / `retrieveStackRef` and the cluster
pair), the label filter (`allowedLabels`), the error-return behaviour of
the HTTP fetcher (`getJSON` / `gatherData`), and the per-record router
`processMetrics`.

Go maps are embedded as association lists with unique-key upsert;
the process-wide mutable reference maps become explicit state threaded
through the record-processing fold; the metrics channel becomes a list
of emitted observations.  Functions of the repository that live outside
`gather.go` (the `checkMetric` type allow-list, the compiled label
regular expression, and the metric emitters) are either taken as
parameters or modelled from the specification, as marked on each
definition.
-/

namespace RancherExporter

/-! ## Strings and association lists -/

/-- The predicate `hasPref pat s` is true when `pat` is an initial segment of `s`
(character-list version of a string prefix test). -/
def hasPref : List Char → List Char → Bool
  | [], _ => true
  | _ :: _, [] => false
  | p :: ps, c :: cs => p == c && hasPref ps cs

/-- The predicate `occursAt pat s i` is true when `pat` occurs in `s` starting at index `i`. -/
def occursAt (pat s : List Char) (i : Nat) : Bool :=
  hasPref pat (s.drop i)

/-- Embedding of the Go call `strings.Replace(s, pat, rep, 1)`: replace the first
occurrence of `pat` in `s` by `rep`; leave `s` unchanged when `pat` does not
occur. -/
def replFirst (pat rep : List Char) : List Char → List Char
  | [] => if hasPref pat [] then rep else []
  | c :: cs =>
      if hasPref pat (c :: cs) then rep ++ (c :: cs).drop pat.length
      else c :: replFirst pat rep cs

/-- Upsert into an association list with unique keys: overwrite the binding
when the key is present, append it otherwise.  This is the embedding of an
assignment `m[k] = v` on a Go map. -/
def upsert (k v : String) : List (String × String) → List (String × String)
  | [] => [(k, v)]
  | (k0, v0) :: rest =>
      if k0 == k then (k, v) :: rest else (k0, v0) :: upsert k v rest

/-! ## Data model (`Data`, `HostInfo`, `MountPoint`, `LaunchConfig`,
`ComponentStatuses`, `Condition` from `gather.go`) -/

/-- Struct `MountPoint` from `gather.go`: disk totals for one mount point. -/
structure MountPoint where
  total : Int
  used : Int
deriving DecidableEq

/-- Struct `HostInfo` from `gather.go`: the nested hardware-info payload of a host
record (CPU count, memory totals, disk mount points). -/
structure HostInfo where
  cpuCount : Int
  memTotal : Int
  memFree : Int
  mountPoints : List (String × MountPoint)
deriving DecidableEq

/-- Struct `LaunchConfig` from `gather.go`: the launch-config label map of a
service record. -/
structure LaunchConfig where
  labels : List (String × String)
deriving DecidableEq

/-- Struct `Condition` from `gather.go`: one condition of a cluster component. -/
structure Condition where
  status : String
deriving DecidableEq

/-- Struct `ComponentStatuses` from `gather.go`: a named cluster component with its
condition list. -/
structure ComponentStatuses where
  conditions : List Condition
  name : String
deriving DecidableEq

/-- One element of `Data.Data` from `gather.go`: the field superset shared by
all endpoint payloads.  The Go `nil` pointers for the optional nested payloads
become `Option`; the label maps become association lists. -/
structure Record where
  healthState : String
  name : String
  state : String
  system : Bool
  scale : Int
  hostName : String
  id : String
  stackID : String
  envID : String
  baseType : String
  type : String
  agentState : String
  labels : List (String × String)
  clusterID : String
  nodeName : String
  hostInfo : Option HostInfo
  launchConfig : Option LaunchConfig
  componentStatuses : List ComponentStatuses
deriving DecidableEq

/-- A record with every field empty; concrete payloads below update the
fields they need. -/
def emptyRecord : Record :=
  { healthState := "", name := "", state := "", system := false, scale := 0,
    hostName := "", id := "", stackID := "", envID := "", baseType := "",
    type := "", agentState := "", labels := [], clusterID := "",
    nodeName := "", hostInfo := none, launchConfig := none,
    componentStatuses := [] }

/-! ## `setEndpoint` and the reference cache -/

/-- The raw endpoint string built by `setEndpoint` before the version
rewrite: `{baseURL}/{endpointName}/?limit={resourceLimit}`. -/
def rawEndpoint (rancherURL component resourceLimit : String) : String :=
  rancherURL ++ "/" ++ component ++ "/" ++ "?limit=" ++ resourceLimit

/-- Embedding of `setEndpoint` (gather.go:211-218): join base URL, component
and limit, then `strings.Replace(endpoint, "v1", "v2-beta", 1)`. -/
def setEndpoint (rancherURL component resourceLimit : String) : String :=
  let endpoint := rawEndpoint rancherURL component resourceLimit
  String.mk (replFirst "v1".data "v2-beta".data endpoint.data)

/-- Embedding of `storeStackRef` (gather.go:221-225): the assignment
`stackRef[stackID] = stackName` on the process-wide stack map, made explicit
as an upsert on the cache value. -/
def storeStackRef (stackID stackName : String)
    (stackRef : List (String × String)) : List (String × String) :=
  upsert stackID stackName stackRef

/-- Embedding of `retrieveStackRef` (gather.go:228-239): iterate the map; an
empty query key answers `"unknown"`, a matching key answers its value, and
falling off the loop answers `"unknown"`. -/
def retrieveStackRef (stackID : String) : List (String × String) → String
  | [] => "unknown"
  | (key, value) :: rest =>
      if stackID == "" then "unknown"
      else if stackID == key then value
      else retrieveStackRef stackID rest

/-- Embedding of `storeClusterRef` (gather.go:242-246), the cluster twin of
`storeStackRef`. -/
def storeClusterRef (clusterID clusterName : String)
    (clusterRef : List (String × String)) : List (String × String) :=
  upsert clusterID clusterName clusterRef

/-- Embedding of `retrieveClusterRef` (gather.go:249-260), the cluster twin
of `retrieveStackRef`. -/
def retrieveClusterRef (clusterID : String) : List (String × String) → String
  | [] => "unknown"
  | (key, value) :: rest =>
      if clusterID == "" then "unknown"
      else if clusterID == key then value
      else retrieveClusterRef clusterID rest

/-! ## `allowedLabels` -/

/-- Embedding of `Exporter.allowedLabels` (gather.go:160-168): keep the
entries whose key satisfies `MatchString` of the compiled pattern, here taken
as the predicate `labelsFilter`. -/
def allowedLabels (labelsFilter : String → Bool)
    (labels : List (String × String)) : List (String × String) :=
  labels.filter (fun p => labelsFilter p.1)

/-! ## `getJSON` and `gatherData` error behaviour -/

/-- Outcome of decoding the response body in `getJSON`. -/
inductive DecodeResult where
  | ok
  | fail (msg : String)
deriving DecidableEq

/-- The observable outcome of the HTTP round trip inside `getJSON`: either
`client.Do` fails (and the response is Go `nil`), or a response with a
status code arrives and its body decodes or not. -/
inductive HttpOutcome where
  | transportFail (msg : String)
  | response (status : Nat) (decode : DecodeResult)
deriving DecidableEq

/-- Embedding of the error-return behaviour of `getJSON`
(gather.go:171-208).  `none` models a runtime panic: when `client.Do`
returns an error the response is `nil` and `resp.StatusCode`
(gather.go:193) dereferences a nil pointer.  `some none` models returning a
`nil` error, `some (some e)` returning error `e`.  A transport error is only
logged and then the nil response is dereferenced; a non-200 status is only
logged and the decode result is returned regardless. -/
def getJSON : HttpOutcome → Option (Option String)
  | .transportFail _ => none
  | .response _ d =>
      some (match d with
            | .ok => none
            | .fail e => some e)

/-- Embedding of the error path of `gatherData` (gather.go:142-158): it
calls `getJSON` and abandons the endpoint (`Except.error`) exactly when
`getJSON` returns a non-nil error; the outer `none` again models a panic
propagating out of `getJSON`. -/
def gatherData (outcome : HttpOutcome) : Option (Except String Unit) :=
  match getJSON outcome with
  | none => none
  | some none => some (.ok ())
  | some (some e) => some (.error e)

/-! ## Metric observations and the emitters

The emitter functions (`setHostStateMetrics`, `setHostInfoMetrics`,
`setStackMetrics`, `setServiceMetrics`, `setClusterMetrics`,
`setNodeMetrics`) live outside `gather.go` and are modelled from the
specification, which describes each as a pure function from resolved record
fields, resolved parent name and filtered labels to one or more metric
observations. -/

/-- A metric observation: a `(name, label set, numeric value)` tuple handed
to the metrics sink. -/
structure Metric where
  metricName : String
  labels : List (String × String)
  value : Int
deriving DecidableEq

/-- Modelled from the spec: the per-host state and
agent-state gauges.  The numeric encoding of a state gauge is outside the
source here, so the gauge carries its state string as a label and a unit
value. -/
def setHostStateMetrics (s state agentState : String)
    (filteredLabels : List (String × String)) : List Metric :=
  [ ⟨"host_state", ("name", s) :: ("state", state) :: filteredLabels, 1⟩,
    ⟨"host_agent_state", ("name", s) :: ("state", agentState) :: filteredLabels, 1⟩ ]

/-- Modelled from the spec: the hardware gauges of the host emitter, present only
when the hardware-info payload is: CPU count, memory total and free, and one
total/used gauge pair per disk mount point. -/
def setHostInfoMetrics (s : String) (info : HostInfo)
    (filteredLabels : List (String × String)) : List Metric :=
  [ ⟨"host_cpu_count", ("name", s) :: filteredLabels, info.cpuCount⟩,
    ⟨"host_mem_total", ("name", s) :: filteredLabels, info.memTotal⟩,
    ⟨"host_mem_free", ("name", s) :: filteredLabels, info.memFree⟩ ]
  ++ (info.mountPoints.map (fun mp =>
        [ ⟨"host_disk_total", ("name", s) :: ("mount", mp.1) :: filteredLabels, mp.2.total⟩,
          ⟨"host_disk_used", ("name", s) :: ("mount", mp.1) :: filteredLabels, mp.2.used⟩ ])).flatten

/-- Modelled from the spec: the stack state and health-state
gauges, carrying the boolean-as-string system label. -/
def setStackMetrics (name state healthState systemStr : String) : List Metric :=
  [ ⟨"stack_state", [("name", name), ("state", state), ("system", systemStr)], 1⟩,
    ⟨"stack_health_state", [("name", name), ("health_state", healthState), ("system", systemStr)], 1⟩ ]

/-- Modelled from the spec: the service state, health-state and
scale gauges, each labelled with the resolved stack name and the filtered
labels. -/
def setServiceMetrics (name stackName state healthState : String) (scale : Int)
    (filteredLabels : List (String × String)) : List Metric :=
  [ ⟨"service_state", ("name", name) :: ("stack_name", stackName) :: ("state", state) :: filteredLabels, 1⟩,
    ⟨"service_health_state", ("name", name) :: ("stack_name", stackName) :: ("health_state", healthState) :: filteredLabels, 1⟩,
    ⟨"service_scale", ("name", name) :: ("stack_name", stackName) :: filteredLabels, scale⟩ ]

/-- Modelled from the spec: the cluster state gauge plus one
condition gauge per component status, keyed by component name and condition
status. -/
def setClusterMetrics (name state : String)
    (componentStatuses : List ComponentStatuses) : List Metric :=
  ⟨"cluster_state", [("name", name), ("state", state)], 1⟩ ::
  (componentStatuses.map (fun c =>
      c.conditions.map (fun cond =>
        ⟨"cluster_component_status",
         [("cluster_name", name), ("component", c.name), ("status", cond.status)], 1⟩))).flatten

/-- Modelled from the spec: the node state gauge labelled with the
resolved cluster name. -/
def setNodeMetrics (nodeName state clusterName : String) : List Metric :=
  [ ⟨"node_state", [("name", nodeName), ("state", state), ("cluster_name", clusterName)], 1⟩ ]

/-! ## The record router `processMetrics` -/

/-- The two process-wide reference maps (`stackRef`, `clusterRef` globals). -/
structure Refs where
  stackRef : List (String × String)
  clusterRef : List (String × String)
deriving DecidableEq

/-- State threaded through the record loop of `processMetrics`: the global
reference maps, the loop-local `filteredLabels` variable, and the metrics
sent on the channel so far. -/
structure ProcState where
  refs : Refs
  filteredLabels : List (String × String)
  emitted : List Metric
deriving DecidableEq

/-- The effective data type of a record (gather.go:84-87): `basetype`,
falling back to `type` when `basetype` is empty. -/
def effType (x : Record) : String :=
  if x.baseType == "" then x.type else x.baseType

/-- The display identifier of a host record (gather.go:96-99): `hostname`,
overridden by `name` when `name` is non-empty. -/
def hostDisplayName (x : Record) : String :=
  if x.name == "" then x.hostName else x.name

/-- Embedding of `strconv.FormatBool`. -/
def formatBool (b : Bool) : String :=
  if b then "true" else "false"

/-- The filtered labels used by the services branch (gather.go:118-120):
recomputed from the launch-config labels only when that label set is
non-empty, otherwise the previous value of the shared variable. -/
def serviceLabels (labelsFilter : String → Bool) (x : Record)
    (prev : List (String × String)) : List (String × String) :=
  match x.launchConfig with
  | some lc => if lc.labels.length > 0 then allowedLabels labelsFilter lc.labels else prev
  | none => prev

/-- One iteration of the record loop of `processMetrics` (gather.go:77-136).
`checkMetric` is the per-endpoint type allow-list defined outside
`gather.go`; `labelsFilter` is `MatchString` of the compiled label pattern.
The system-resource skip and the type check `continue` leave the state
untouched; each endpoint branch updates the reference maps, the shared
`filteredLabels` variable and the emitted metrics exactly as the source
does. -/
def processRecord (checkMetric : String → String → Bool)
    (labelsFilter : String → Bool) (endpoint : String) (hideSys : Bool)
    (st : ProcState) (x : Record) : ProcState :=
  if hideSys && x.system then st
  else if !(checkMetric endpoint (effType x)) then st
  else if endpoint == "hosts" then
    let filteredLabels := allowedLabels labelsFilter x.labels
    let s := hostDisplayName x
    let stateMetrics := setHostStateMetrics s x.state x.agentState filteredLabels
    let infoMetrics :=
      match x.hostInfo with
      | some info => setHostInfoMetrics s info filteredLabels
      | none => []
    { st with filteredLabels := filteredLabels,
              emitted := st.emitted ++ stateMetrics ++ infoMetrics }
  else if endpoint == "stacks" then
    { st with refs := { st.refs with stackRef := storeStackRef x.id x.name st.refs.stackRef },
              emitted := st.emitted ++ setStackMetrics x.name x.state x.healthState (formatBool x.system) }
  else if endpoint == "services" then
    let stackName := retrieveStackRef x.stackID st.refs.stackRef
    let filteredLabels := serviceLabels labelsFilter x st.filteredLabels
    { st with filteredLabels := filteredLabels,
              emitted := st.emitted ++ setServiceMetrics x.name stackName x.state x.healthState x.scale filteredLabels }
  else if endpoint == "clusters" then
    { st with refs := { st.refs with clusterRef := storeClusterRef x.id x.name st.refs.clusterRef },
              emitted := st.emitted ++ setClusterMetrics x.name x.state x.componentStatuses }
  else if endpoint == "nodes" then
    let clusterName := retrieveClusterRef x.clusterID st.refs.clusterRef
    { st with emitted := st.emitted ++ setNodeMetrics x.nodeName x.state clusterName }
  else st

/-- Embedding of `Exporter.processMetrics` (gather.go:73-139): fold the
record loop over the payload.  The reference maps enter and leave as state
(they are globals in the source); the `filteredLabels` variable starts at
its zero value (a nil map, embedded as `[]`) on every call; the returned
list is everything sent on the metrics channel during the call. -/
def processMetrics (checkMetric : String → String → Bool)
    (labelsFilter : String → Bool) (endpoint : String) (hideSys : Bool)
    (data : List Record) (refs : Refs) : Refs × List Metric :=
  let st := data.foldl (processRecord checkMetric labelsFilter endpoint hideSys)
    ⟨refs, [], []⟩
  (st.refs, st.emitted)

/-! ## Helper lemmas -/

theorem hasPref_of_nonempty_nil (p : Char) (ps : List Char) :
    hasPref (p :: ps) [] = false := rfl

theorem replFirst_not_found (pat rep : List Char) (s : List Char)
    (h : ∀ i, occursAt pat s i = false) : replFirst pat rep s = s := by
  induction s with
  | nil =>
      have h0 := h 0
      simp only [occursAt, List.drop_nil] at h0
      simp [replFirst, h0]
  | cons c cs ih =>
      have h0 := h 0
      simp only [occursAt, List.drop_zero] at h0
      rw [replFirst, if_neg (by simp [h0])]
      exact congrArg (c :: ·) (ih (fun i => by
        have := h (i + 1)
        simpa [occursAt] using this))

theorem replFirst_found (pat rep : List Char) (s : List Char) (i : Nat)
    (hi : occursAt pat s i = true) (hmin : ∀ j < i, occursAt pat s j = false) :
    replFirst pat rep s = s.take i ++ rep ++ s.drop (i + pat.length) := by
  induction s generalizing i with
  | nil =>
      cases pat with
      | nil => simp [replFirst, hasPref]
      | cons p ps => simp [occursAt, hasPref] at hi
  | cons c cs ih =>
      cases i with
      | zero =>
          simp only [occursAt, List.drop_zero] at hi
          rw [replFirst, if_pos hi]
          simp
      | succ j =>
          have h0 := hmin 0 (Nat.succ_pos j)
          simp only [occursAt, List.drop_zero] at h0
          rw [replFirst, if_neg (by simp [h0])]
          have hj : occursAt pat cs j = true := by
            simpa [occursAt] using hi
          have hjmin : ∀ k < j, occursAt pat cs k = false := fun k hk => by
            have := hmin (k + 1) (Nat.succ_lt_succ hk)
            simpa [occursAt] using this
          rw [ih j hj hjmin]
          have harith : j + 1 + pat.length = (j + pat.length) + 1 := by omega
          simp [harith]

theorem retrieveStackRef_empty_key (m : List (String × String)) :
    retrieveStackRef "" m = "unknown" := by
  cases m with
  | nil => rfl
  | cons p rest => obtain ⟨k, v⟩ := p; simp [retrieveStackRef]

theorem retrieveStackRef_store_self (m : List (String × String))
    (id n : String) (h : id ≠ "") :
    retrieveStackRef id (storeStackRef id n m) = n := by
  induction m with
  | nil => simp [storeStackRef, upsert, retrieveStackRef, h]
  | cons p rest ih =>
      obtain ⟨k0, v0⟩ := p
      by_cases hk : k0 = id
      · subst hk
        simp [storeStackRef, upsert, retrieveStackRef, h]
      · simp only [storeStackRef, upsert] at ih ⊢
        rw [if_neg (by simp [hk])]
        simpa [retrieveStackRef, h, Ne.symm hk] using ih

theorem retrieveStackRef_store_other (m : List (String × String))
    (id id2 n : String) (h : id2 ≠ id) :
    retrieveStackRef id2 (storeStackRef id n m) = retrieveStackRef id2 m := by
  by_cases h2 : id2 = ""
  · subst h2
    rw [retrieveStackRef_empty_key, retrieveStackRef_empty_key]
  · induction m with
    | nil => simp [storeStackRef, upsert, retrieveStackRef, h2, h]
    | cons p rest ih =>
        obtain ⟨k0, v0⟩ := p
        by_cases hk : k0 = id
        · subst hk
          simp [storeStackRef, upsert, retrieveStackRef, h2, h]
        · simp only [storeStackRef, upsert] at ih ⊢
          rw [if_neg (by simp [hk])]
          by_cases hk2 : id2 = k0
          · subst hk2
            simp [retrieveStackRef, h2]
          · simp only [retrieveStackRef]
            rw [if_neg (by simp [h2]), if_neg (by simp [hk2]),
              if_neg (by simp [h2]), if_neg (by simp [hk2])]
            exact ih

theorem retrieveStackRef_not_mem (m : List (String × String)) (id : String)
    (h : ∀ p ∈ m, p.1 ≠ id) : retrieveStackRef id m = "unknown" := by
  induction m with
  | nil => rfl
  | cons p rest ih =>
      obtain ⟨k, v⟩ := p
      have hk : k ≠ id := h (k, v) (List.mem_cons_self _ _)
      by_cases h2 : id = ""
      · subst h2; simp [retrieveStackRef]
      · simp only [retrieveStackRef]
        rw [if_neg (by simp [h2]), if_neg (by simp [Ne.symm hk])]
        exact ih (fun q hq => h q (List.mem_cons_of_mem _ hq))

theorem retrieveClusterRef_empty_key (m : List (String × String)) :
    retrieveClusterRef "" m = "unknown" := by
  cases m with
  | nil => rfl
  | cons p rest => obtain ⟨k, v⟩ := p; simp [retrieveClusterRef]

theorem retrieveClusterRef_store_self (m : List (String × String))
    (id n : String) (h : id ≠ "") :
    retrieveClusterRef id (storeClusterRef id n m) = n := by
  induction m with
  | nil => simp [storeClusterRef, upsert, retrieveClusterRef, h]
  | cons p rest ih =>
      obtain ⟨k0, v0⟩ := p
      by_cases hk : k0 = id
      · subst hk
        simp [storeClusterRef, upsert, retrieveClusterRef, h]
      · simp only [storeClusterRef, upsert] at ih ⊢
        rw [if_neg (by simp [hk])]
        simpa [retrieveClusterRef, h, Ne.symm hk] using ih

theorem retrieveClusterRef_store_other (m : List (String × String))
    (id id2 n : String) (h : id2 ≠ id) :
    retrieveClusterRef id2 (storeClusterRef id n m) = retrieveClusterRef id2 m := by
  by_cases h2 : id2 = ""
  · subst h2
    rw [retrieveClusterRef_empty_key, retrieveClusterRef_empty_key]
  · induction m with
    | nil => simp [storeClusterRef, upsert, retrieveClusterRef, h2, h]
    | cons p rest ih =>
        obtain ⟨k0, v0⟩ := p
        by_cases hk : k0 = id
        · subst hk
          simp [storeClusterRef, upsert, retrieveClusterRef, h2, h]
        · simp only [storeClusterRef, upsert] at ih ⊢
          rw [if_neg (by simp [hk])]
          by_cases hk2 : id2 = k0
          · subst hk2
            simp [retrieveClusterRef, h2]
          · simp only [retrieveClusterRef]
            rw [if_neg (by simp [h2]), if_neg (by simp [hk2]),
              if_neg (by simp [h2]), if_neg (by simp [hk2])]
            exact ih

theorem retrieveClusterRef_not_mem (m : List (String × String)) (id : String)
    (h : ∀ p ∈ m, p.1 ≠ id) : retrieveClusterRef id m = "unknown" := by
  induction m with
  | nil => rfl
  | cons p rest ih =>
      obtain ⟨k, v⟩ := p
      have hk : k ≠ id := h (k, v) (List.mem_cons_self _ _)
      by_cases h2 : id = ""
      · subst h2; simp [retrieveClusterRef]
      · simp only [retrieveClusterRef]
        rw [if_neg (by simp [h2]), if_neg (by simp [Ne.symm hk])]
        exact ih (fun q hq => h q (List.mem_cons_of_mem _ hq))

/-! ## Claim C1: error surfacing in `getJSON` -/

/-- Claim C1: the spec says transport failure, non-200 status and
JSON-decode failure each make `getJSON` return a non-nil error.  The code
only returns the decode error: a non-200 response whose body still decodes
yields a nil error (and `gatherData` happily keeps the endpoint), and a
transport failure leaves the response nil, so the status check panics
instead of returning. -/
theorem getJSON_error_surfacing :
    getJSON (.response 500 .ok) = some none ∧
    getJSON (.transportFail "connection refused") = none ∧
    getJSON (.response 200 (.fail "unexpected EOF")) = some (some "unexpected EOF") ∧
    gatherData (.response 500 .ok) = some (.ok ()) ∧
    gatherData (.transportFail "connection refused") = none :=
  ⟨rfl, rfl, rfl, rfl, rfl⟩

/-! ## Claim C4: `setEndpoint` -/

/-- Claim C4 (counterexample): the rewrite is a first-occurrence literal
substring replacement, not a rewrite of the API-version path segment: with
`v1` occurring earlier in the host name, the host name is rewritten and the
version segment is left as `v1`, so the rewrite does not affect only the
version path segment. -/
theorem setEndpoint_counterexample :
    setEndpoint "http://v1.example/v1" "hosts" "100" =
      "http://v2-beta.example/v1/hosts/?limit=100" ∧
    setEndpoint "http://v1.example/v1" "hosts" "100" ≠
      "http://v1.example/v2-beta/hosts/?limit=100" := by
  constructor
  · rfl
  · decide

/-- Claim C4 (amended): `setEndpoint` returns
`{baseURL}/{endpointName}/?limit={resourceLimit}` with a one-time rewrite of
the first occurrence of the literal substring `v1` anywhere in that string
(not necessarily the API-version path segment) to `v2-beta`; when `v1` does
not occur the string is returned unchanged; in particular
`setEndpoint("http://h/v1", "hosts", "100")` returns
`"http://h/v2-beta/hosts/?limit=100"`. -/
theorem setEndpoint_amended :
    setEndpoint "http://h/v1" "hosts" "100" = "http://h/v2-beta/hosts/?limit=100" ∧
    ∀ rancherURL component resourceLimit : String,
      ((∀ i < (rawEndpoint rancherURL component resourceLimit).data.length,
          occursAt "v1".data (rawEndpoint rancherURL component resourceLimit).data i = false) →
        setEndpoint rancherURL component resourceLimit =
          rawEndpoint rancherURL component resourceLimit) ∧
      (∀ i, occursAt "v1".data (rawEndpoint rancherURL component resourceLimit).data i = true →
        (∀ j < i, occursAt "v1".data (rawEndpoint rancherURL component resourceLimit).data j = false) →
        setEndpoint rancherURL component resourceLimit =
          String.mk ((rawEndpoint rancherURL component resourceLimit).data.take i ++
            "v2-beta".data ++
            (rawEndpoint rancherURL component resourceLimit).data.drop (i + 2))) := by
  constructor
  · rfl
  · intro rancherURL component resourceLimit
    constructor
    · intro h
      have hall : ∀ i, occursAt "v1".data
          (rawEndpoint rancherURL component resourceLimit).data i = false := by
        intro i
        by_cases hi : i < (rawEndpoint rancherURL component resourceLimit).data.length
        · exact h i hi
        · have hdrop : (rawEndpoint rancherURL component resourceLimit).data.drop i = [] :=
            List.drop_eq_nil_of_le (Nat.le_of_not_lt hi)
          simp [occursAt, hdrop, hasPref]
      show String.mk _ = _
      rw [replFirst_not_found _ _ _ hall]
    · intro i hi hmin
      show String.mk _ = _
      rw [replFirst_found _ _ _ i hi hmin]
      rfl

/-- Claim C4 witness: instantiating the amended theorem at inputs with and
without an occurrence of `v1`. -/
theorem setEndpoint_amended_witness :
    setEndpoint "http://h" "hosts" "3" = "http://h/hosts/?limit=3" ∧
    setEndpoint "v1x" "h" "9" = String.mk ("v1x/h/?limit=9".data.take 0 ++
      "v2-beta".data ++ "v1x/h/?limit=9".data.drop 2) :=
  ⟨(setEndpoint_amended.2 "http://h" "hosts" "3").1 (by decide),
   (setEndpoint_amended.2 "v1x" "h" "9").2 0 (by decide)
     (fun j hj => absurd hj (Nat.not_lt_zero j))⟩

/-! ## Claim C5: the reference cache -/

/-- Claim C5: after any store sequence, retrieval returns the most recently
stored name for a key (last write wins, and stores to other keys do not
disturb it), `"unknown"` for the empty key and for a key never stored; both
retrieval functions are total, so no error is ever raised. -/
theorem refCache_spec :
    (∀ (m : List (String × String)) (id n : String), id ≠ "" →
        retrieveStackRef id (storeStackRef id n m) = n) ∧
    (∀ (m : List (String × String)) (id id2 n : String), id2 ≠ id →
        retrieveStackRef id2 (storeStackRef id n m) = retrieveStackRef id2 m) ∧
    (∀ m : List (String × String), retrieveStackRef "" m = "unknown") ∧
    (∀ (m : List (String × String)) (id : String), (∀ p ∈ m, p.1 ≠ id) →
        retrieveStackRef id m = "unknown") ∧
    (∀ (m : List (String × String)) (id n : String), id ≠ "" →
        retrieveClusterRef id (storeClusterRef id n m) = n) ∧
    (∀ (m : List (String × String)) (id id2 n : String), id2 ≠ id →
        retrieveClusterRef id2 (storeClusterRef id n m) = retrieveClusterRef id2 m) ∧
    (∀ m : List (String × String), retrieveClusterRef "" m = "unknown") ∧
    (∀ (m : List (String × String)) (id : String), (∀ p ∈ m, p.1 ≠ id) →
        retrieveClusterRef id m = "unknown") :=
  ⟨retrieveStackRef_store_self, retrieveStackRef_store_other,
   retrieveStackRef_empty_key, retrieveStackRef_not_mem,
   retrieveClusterRef_store_self, retrieveClusterRef_store_other,
   retrieveClusterRef_empty_key, retrieveClusterRef_not_mem⟩

/-- Claim C5 witness: last write wins on a doubly stored id, the empty key
and an absent key answer `"unknown"`, for both caches. -/
theorem refCache_spec_witness :
    retrieveStackRef "s1" (storeStackRef "s1" "B" (storeStackRef "s1" "A" [])) = "B" ∧
    retrieveStackRef "" [("", "A")] = "unknown" ∧
    retrieveStackRef "s2" [("s1", "A")] = "unknown" ∧
    retrieveClusterRef "c1" (storeClusterRef "c1" "B" (storeClusterRef "c1" "A" [])) = "B" ∧
    retrieveClusterRef "" [("", "A")] = "unknown" ∧
    retrieveClusterRef "c2" [("c1", "A")] = "unknown" :=
  ⟨refCache_spec.1 _ _ _ (by decide),
   refCache_spec.2.2.1 _,
   refCache_spec.2.2.2.1 _ _ (by decide),
   refCache_spec.2.2.2.2.1 _ _ _ (by decide),
   refCache_spec.2.2.2.2.2.2.1 _,
   refCache_spec.2.2.2.2.2.2.2 _ _ (by decide)⟩

/-! ## Claim C8: `allowedLabels` -/

/-- Claim C8: `allowedLabels` returns exactly the entries whose key matches
the pattern, with values unchanged; the result is permutation-invariant in
the input order; an empty input or an input with no matching key yields the
empty map; and on `{"a":"1","xb":"2"}` with a pattern matching keys starting
with `a` the result is exactly `{"a":"1"}`. -/
theorem allowedLabels_spec :
    (∀ (labelsFilter : String → Bool) (labels : List (String × String)) (k v : String),
        (k, v) ∈ allowedLabels labelsFilter labels ↔
          (k, v) ∈ labels ∧ labelsFilter k = true) ∧
    (∀ (labelsFilter : String → Bool) (l1 l2 : List (String × String)), l1.Perm l2 →
        (allowedLabels labelsFilter l1).Perm (allowedLabels labelsFilter l2)) ∧
    (∀ labelsFilter : String → Bool, allowedLabels labelsFilter [] = []) ∧
    (∀ (labelsFilter : String → Bool) (labels : List (String × String)),
        (∀ p ∈ labels, labelsFilter p.1 = false) →
        allowedLabels labelsFilter labels = []) ∧
    allowedLabels (fun k => hasPref "a".data k.data) [("a", "1"), ("xb", "2")] =
      [("a", "1")] := by
  refine ⟨?_, ?_, ?_, ?_, ?_⟩
  · intro labelsFilter labels k v
    simp [allowedLabels, List.mem_filter]
  · intro labelsFilter l1 l2 hperm
    exact hperm.filter _
  · intro labelsFilter
    rfl
  · intro labelsFilter labels h
    simp only [allowedLabels, List.filter_eq_nil_iff]
    intro p hp
    simp [h p hp]
  · rfl

/-- Claim C8 witness: the permutation-invariance and no-match conjuncts
applied at concrete inputs. -/
theorem allowedLabels_spec_witness :
    (allowedLabels (fun _ => true) [("x", "1"), ("y", "2")]).Perm
      (allowedLabels (fun _ => true) [("y", "2"), ("x", "1")]) ∧
    allowedLabels (fun _ => false) [("x", "1")] = [] :=
  ⟨allowedLabels_spec.2.1 _ _ _ (by decide),
   allowedLabels_spec.2.2.2.1 _ _ (by decide)⟩

/-! ## Claim C6: the system-resource skip -/

/-- Claim C6: with `hideSystemResources = true`, a record flagged
`system = true` is skipped before any branch runs: no metric is emitted and
no state (in particular no reference-cache entry) changes. -/
theorem processRecord_skips_system (checkMetric : String → String → Bool)
    (labelsFilter : String → Bool) (endpoint : String) (st : ProcState)
    (x : Record) (hsys : x.system = true) :
    processRecord checkMetric labelsFilter endpoint true st x = st := by
  simp [processRecord, hsys]

/-- Claim C6 witness: a concrete system-owned stacks record leaves the
state untouched. -/
theorem processRecord_skips_system_witness :
    processRecord (fun _ _ => true) (fun _ => true) "stacks" true
      ⟨⟨[], []⟩, [], []⟩
      { emptyRecord with system := true, id := "s1", name := "prod" } =
      ⟨⟨[], []⟩, [], []⟩ :=
  processRecord_skips_system _ _ _ _ _ rfl

/-! ## Claim C2: the stacks-endpoint cache write -/

/-- Claim C2 (counterexample): a stacks record skipped by the
system-resource filter produces no cache write at all — after processing a
system-owned stacks payload with `hideSystemResources = true` the stack
reference cache is still empty and the id still resolves to `"unknown"`,
so the upsert is not independent of the skip filters. -/
theorem stacks_skip_no_upsert_counterexample :
    (processMetrics (fun _ _ => true) (fun _ => true) "stacks" true
        [{ emptyRecord with system := true, id := "s1", name := "prod" }]
        ⟨[], []⟩).1.stackRef = [] ∧
    retrieveStackRef "s1"
      (processMetrics (fun _ _ => true) (fun _ => true) "stacks" true
        [{ emptyRecord with system := true, id := "s1", name := "prod" }]
        ⟨[], []⟩).1.stackRef = "unknown" :=
  ⟨rfl, rfl⟩

/-- Claim C2 (amended): for every stacks record that passes the
system-resource filter and the type check, `(id, name)` is upserted into the
stack reference cache (and the stack metrics are emitted in the same
branch); a record skipped by either filter produces no cache write and no
metric. -/
theorem processRecord_stacks_cache (checkMetric : String → String → Bool)
    (labelsFilter : String → Bool) (hideSys : Bool) (st : ProcState)
    (x : Record) :
    ((hideSys && x.system) = false → checkMetric "stacks" (effType x) = true →
      processRecord checkMetric labelsFilter "stacks" hideSys st x =
        { st with
            refs := { st.refs with stackRef := storeStackRef x.id x.name st.refs.stackRef },
            emitted := st.emitted ++
              setStackMetrics x.name x.state x.healthState (formatBool x.system) }) ∧
    ((hideSys && x.system) = true ∨ checkMetric "stacks" (effType x) = false →
      processRecord checkMetric labelsFilter "stacks" hideSys st x = st) := by
  constructor
  · intro hsys hty
    simp [processRecord, hsys, hty]
  · intro h
    rcases h with h | h
    · simp [processRecord, h]
    · simp [processRecord, h]

/-- Claim C2 witness: a stacks record passing both filters writes its
`(id, name)` binding, and a system-owned one writes nothing. -/
theorem processRecord_stacks_cache_witness :
    processRecord (fun _ _ => true) (fun _ => true) "stacks" false
      ⟨⟨[], []⟩, [], []⟩ { emptyRecord with id := "s1", name := "prod" } =
      { refs := { stackRef := storeStackRef "s1" "prod" [], clusterRef := [] },
        filteredLabels := [],
        emitted := [] ++ setStackMetrics "prod" "" "" (formatBool false) } ∧
    processRecord (fun _ _ => false) (fun _ => true) "stacks" false
      ⟨⟨[], []⟩, [], []⟩ { emptyRecord with id := "s1", name := "prod" } =
      ⟨⟨[], []⟩, [], []⟩ :=
  ⟨(processRecord_stacks_cache _ _ _ _ _).1 rfl rfl,
   (processRecord_stacks_cache _ _ _ _ _).2 (Or.inr rfl)⟩

/-! ## Claim C3: the services filtered labels -/

/-- Claim C3: on the services endpoint, a record with a non-empty
launch-config label set has its filtered labels recomputed from those labels
and passed to `setServiceMetrics`; a record with an absent launch config or
an empty launch-config label set reuses the previously stored value of the
shared filtered-labels variable unchanged. -/
theorem processRecord_services_labels (checkMetric : String → String → Bool)
    (labelsFilter : String → Bool) (hideSys : Bool) (st : ProcState)
    (x : Record) (hsys : (hideSys && x.system) = false)
    (hty : checkMetric "services" (effType x) = true) :
    (∀ lc, x.launchConfig = some lc → lc.labels ≠ [] →
      processRecord checkMetric labelsFilter "services" hideSys st x =
        { st with
            filteredLabels := allowedLabels labelsFilter lc.labels,
            emitted := st.emitted ++
              setServiceMetrics x.name (retrieveStackRef x.stackID st.refs.stackRef)
                x.state x.healthState x.scale (allowedLabels labelsFilter lc.labels) }) ∧
    (x.launchConfig = none ∨ (∃ lc, x.launchConfig = some lc ∧ lc.labels = []) →
      processRecord checkMetric labelsFilter "services" hideSys st x =
        { st with
            emitted := st.emitted ++
              setServiceMetrics x.name (retrieveStackRef x.stackID st.refs.stackRef)
                x.state x.healthState x.scale st.filteredLabels }) := by
  constructor
  · intro lc hlc hne
    have hlen : 0 < lc.labels.length := List.length_pos.mpr hne
    simp [processRecord, hsys, hty, serviceLabels, hlc, hlen]
  · intro h
    rcases h with h | ⟨lc, hlc, hnil⟩
    · simp [processRecord, hsys, hty, serviceLabels, h]
    · simp [processRecord, hsys, hty, serviceLabels, hlc, hnil]

/-- Claim C3 witness: a service record with launch-config labels gets them
filtered; one without reuses the previously stored value. -/
theorem processRecord_services_labels_witness :
    (processRecord (fun _ _ => true) (fun _ => true) "services" false
        ⟨⟨[("s1", "prod")], []⟩, [("p", "q")], []⟩
        { emptyRecord with stackID := "s1", name := "web", launchConfig := some ⟨[("a", "1")]⟩ }).filteredLabels =
      allowedLabels (fun _ => true) [("a", "1")] ∧
    (processRecord (fun _ _ => true) (fun _ => true) "services" false
        ⟨⟨[("s1", "prod")], []⟩, [("p", "q")], []⟩
        { emptyRecord with stackID := "s1", name := "web" }).filteredLabels =
      [("p", "q")] := by
  constructor
  · rw [(processRecord_services_labels (fun _ _ => true) (fun _ => true) false
      ⟨⟨[("s1", "prod")], []⟩, [("p", "q")], []⟩
      { emptyRecord with stackID := "s1", name := "web", launchConfig := some ⟨[("a", "1")]⟩ } rfl rfl).1 ⟨[("a", "1")]⟩ rfl (by decide)]
  · rw [(processRecord_services_labels (fun _ _ => true) (fun _ => true) false
      ⟨⟨[("s1", "prod")], []⟩, [("p", "q")], []⟩
      { emptyRecord with stackID := "s1", name := "web" } rfl rfl).2 (Or.inl rfl)]

/-! ## Claim C10: the initial filtered-labels value on services -/

/-- Claim C10: in a `processMetrics` call on services, the shared
filtered-labels variable starts at its zero value (a nil map, embedded as
`[]`); a first record whose launch config is absent or has an empty label
set therefore hands that zero value to `setServiceMetrics`, and the
top-level `labels` field of the record is never consulted. -/
theorem processRecord_services_initial (checkMetric : String → String → Bool)
    (labelsFilter : String → Bool) (hideSys : Bool) (refs : Refs)
    (em : List Metric) (x : Record)
    (hsys : (hideSys && x.system) = false)
    (hty : checkMetric "services" (effType x) = true)
    (hlc : x.launchConfig = none ∨ ∃ lc, x.launchConfig = some lc ∧ lc.labels = []) :
    (processRecord checkMetric labelsFilter "services" hideSys ⟨refs, [], em⟩ x).emitted =
      em ++ setServiceMetrics x.name (retrieveStackRef x.stackID refs.stackRef)
        x.state x.healthState x.scale [] ∧
    ∀ lbls, processRecord checkMetric labelsFilter "services" hideSys ⟨refs, [], em⟩
        { x with labels := lbls } =
      processRecord checkMetric labelsFilter "services" hideSys ⟨refs, [], em⟩ x := by
  constructor
  · rcases hlc with h | ⟨lc, hlc, hnil⟩
    · simp [processRecord, hsys, hty, serviceLabels, h]
    · simp [processRecord, hsys, hty, serviceLabels, hlc, hnil]
  · intro lbls
    simp [processRecord, effType, hostDisplayName, serviceLabels, allowedLabels]

/-- Claim C10 witness: the first services record of a call, with no launch
config and arbitrary top-level labels, passes the empty label map on. -/
theorem processRecord_services_initial_witness :
    (processRecord (fun _ _ => true) (fun _ => true) "services" false
        ⟨⟨[("s1", "prod")], []⟩, [], []⟩
        { emptyRecord with stackID := "s1", name := "web", labels := [("top", "level")] }).emitted =
      [] ++ setServiceMetrics "web" (retrieveStackRef "s1" [("s1", "prod")])
        "" "" 0 [] :=
  (processRecord_services_initial (fun _ _ => true) (fun _ => true) false
    ⟨[("s1", "prod")], []⟩ []
    { emptyRecord with stackID := "s1", name := "web", labels := [("top", "level")] } rfl rfl (Or.inl rfl)).1

/-! ## Claim C9: hosts without hardware info -/

/-- Claim C9: a hosts record that passes the filters but has no nested
hardware-info payload emits exactly the state and agent-state gauges — the
hardware emitter is not invoked, so no CPU, memory or disk-mount gauge
appears — and processing the record is total (it returns the updated state
rather than failing). -/
theorem processRecord_hosts_no_hostInfo (checkMetric : String → String → Bool)
    (labelsFilter : String → Bool) (hideSys : Bool) (st : ProcState)
    (x : Record) (hsys : (hideSys && x.system) = false)
    (hty : checkMetric "hosts" (effType x) = true)
    (hinfo : x.hostInfo = none) :
    processRecord checkMetric labelsFilter "hosts" hideSys st x =
      { st with
          filteredLabels := allowedLabels labelsFilter x.labels,
          emitted := st.emitted ++
            setHostStateMetrics (hostDisplayName x) x.state x.agentState
              (allowedLabels labelsFilter x.labels) } ∧
    ∀ m ∈ setHostStateMetrics (hostDisplayName x) x.state x.agentState
        (allowedLabels labelsFilter x.labels),
      m.metricName = "host_state" ∨ m.metricName = "host_agent_state" := by
  constructor
  · simp [processRecord, hsys, hty, hinfo]
  · intro m hm
    simp only [setHostStateMetrics, List.mem_cons, List.not_mem_nil, or_false] at hm
    rcases hm with rfl | rfl
    · left; rfl
    · right; rfl

/-- Claim C9 witness: a concrete host record without hardware info emits
exactly its two state gauges. -/
theorem processRecord_hosts_no_hostInfo_witness :
    processRecord (fun _ _ => true) (fun _ => false) "hosts" false
      ⟨⟨[], []⟩, [], []⟩
      { emptyRecord with hostName := "h1", state := "active", agentState := "healthy" } =
      { refs := ⟨[], []⟩,
        filteredLabels := allowedLabels (fun _ => false) [],
        emitted := [] ++ setHostStateMetrics
          (hostDisplayName { emptyRecord with hostName := "h1", state := "active", agentState := "healthy" })
          "active" "healthy" (allowedLabels (fun _ => false) []) } :=
  (processRecord_hosts_no_hostInfo (fun _ _ => true) (fun _ => false) false
    ⟨⟨[], []⟩, [], []⟩
    { emptyRecord with hostName := "h1", state := "active", agentState := "healthy" } rfl rfl rfl).1

/-! ## Claim C7: stacks populate the cache before services read it -/

/-- Claim C7: processing a stacks payload holding `(id "s1", name "prod")`
and then a services payload holding a record with `stackId "s1"` and name
`"web"` (threading the reference maps between the two calls) emits service
metrics, and every one of them carries the resolved stack name `"prod"`
together with the service name `"web"`. -/
theorem stacks_then_services_resolves (checkMetric : String → String → Bool)
    (labelsFilter : String → Bool) (hideSys : Bool) (r1 r2 : Record)
    (refs0 : Refs)
    (h1sys : (hideSys && r1.system) = false)
    (h1ty : checkMetric "stacks" (effType r1) = true)
    (h1id : r1.id = "s1") (h1n : r1.name = "prod")
    (h2sys : (hideSys && r2.system) = false)
    (h2ty : checkMetric "services" (effType r2) = true)
    (h2id : r2.stackID = "s1") (h2n : r2.name = "web") :
    (processMetrics checkMetric labelsFilter "services" hideSys [r2]
        (processMetrics checkMetric labelsFilter "stacks" hideSys [r1] refs0).1).2 ≠ [] ∧
    ∀ m ∈ (processMetrics checkMetric labelsFilter "services" hideSys [r2]
        (processMetrics checkMetric labelsFilter "stacks" hideSys [r1] refs0).1).2,
      ("stack_name", "prod") ∈ m.labels ∧ ("name", "web") ∈ m.labels := by
  have hstack : (processMetrics checkMetric labelsFilter "stacks" hideSys [r1] refs0).1 =
      ⟨storeStackRef "s1" "prod" refs0.stackRef, refs0.clusterRef⟩ := by
    simp [processMetrics, processRecord, h1sys, h1ty, h1id, h1n]
  have hname : retrieveStackRef r2.stackID (storeStackRef "s1" "prod" refs0.stackRef) =
      "prod" := by
    rw [h2id]
    exact retrieveStackRef_store_self _ _ _ (by decide)
  have hserv : (processMetrics checkMetric labelsFilter "services" hideSys [r2]
      (processMetrics checkMetric labelsFilter "stacks" hideSys [r1] refs0).1).2 =
      setServiceMetrics "web" "prod" r2.state r2.healthState r2.scale
        (serviceLabels labelsFilter r2 []) := by
    rw [hstack]
    simp [processMetrics, processRecord, h2sys, h2ty, h2n, hname]
  rw [hserv]
  constructor
  · simp [setServiceMetrics]
  · intro m hm
    simp only [setServiceMetrics, List.mem_cons, List.not_mem_nil, or_false] at hm
    rcases hm with rfl | rfl | rfl
    · exact ⟨by simp, by simp⟩
    · exact ⟨by simp, by simp⟩
    · exact ⟨by simp, by simp⟩

/-- Claim C7 witness: the two-call scenario at concrete payloads emits a
non-empty list of service metrics. -/
theorem stacks_then_services_resolves_witness :
    (processMetrics (fun _ _ => true) (fun _ => false) "services" false
        [{ emptyRecord with stackID := "s1", name := "web" }]
        (processMetrics (fun _ _ => true) (fun _ => false) "stacks" false
          [{ emptyRecord with id := "s1", name := "prod" }] ⟨[], []⟩).1).2 ≠ [] :=
  (stacks_then_services_resolves (fun _ _ => true) (fun _ => false) false
    { emptyRecord with id := "s1", name := "prod" }
    { emptyRecord with stackID := "s1", name := "web" } ⟨[], []⟩
    rfl rfl rfl rfl rfl rfl rfl rfl).1

end RancherExporter
